import Mathlib

/-!
Verification of the ledger core of shop-db2 (`shopdb/api.py`) against its
specification.  The Python source is shallowly embedded: ledger rows become
structures, SQLAlchemy queries become list operations, exceptions become an
error type, and the session/commit discipline becomes explicit state passing.
All amounts are signed integers (minor currency units), embedded as `Int`.
-/

namespace ShopDB

/-- The exceptions raised by the ledger core (`shopdb/exceptions.py` as used
from `shopdb/api.py`). -/
inductive Err where
  | EntryNotFound
  | UserIsNotVerified
  | UserIsInactive
  | InvalidAmount
  | CouldNotCreateEntry
  | CouldNotUpdateEntry
  | NothingHasChanged
  | UnauthorizedAccess
  | TokenIsInvalid
  | TokenHasExpired
  | DataIsMissing
  deriving DecidableEq, Repr

/-- One audit record of a revoke toggle, appended to an entry's
`revokehistory` (`shopdb/models.py`, shape given by the spec §3). -/
structure RevokeEntry where
  admin_id : Nat
  revoked : Bool
  deriving DecidableEq, Repr

/-- A `Purchase` row as read by `get_financial_overview`: its signed `price`
and its `revoked` flag (`shopdb/api.py` line 755 accesses `.price` and
filters on `.revoked`). -/
structure Purchase where
  price : Int
  revoked : Bool
  deriving DecidableEq, Repr

/-- A `Deposit` row: signed `amount` and `revoked` flag. -/
structure Deposit where
  user_id : Nat
  amount : Int
  revoked : Bool
  deriving DecidableEq, Repr

/-- A `Turnover` row: signed `amount`, `revoked` flag and its audit
history, as used by `create_turnover`, `update_turnover` and
`get_financial_overview` in `shopdb/api.py`. -/
structure Turnover where
  amount : Int
  admin_id : Nat
  revoked : Bool
  revokehistory : List RevokeEntry
  deriving DecidableEq, Repr

/-- A `Payoff` row: signed `amount` and `revoked` flag. -/
structure Payoff where
  amount : Int
  revoked : Bool
  deriving DecidableEq, Repr

/-- A `Refund` row: signed `total_price` and `revoked` flag
(`shopdb/api.py` line 823 accesses `.total_price`). -/
structure Refund where
  total_price : Int
  revoked : Bool
  deriving DecidableEq, Repr

/-- A `ReplenishmentCollection` row as read by the overview: its signed
`price` (sum of line-item total prices) and `revoked` flag. -/
structure ReplenishmentCollection where
  price : Int
  revoked : Bool
  deriving DecidableEq, Repr

/-- A `StocktakingCollection` row: only its primary key matters to the
overview, which orders by `id` to pick the first and last snapshot. -/
structure StocktakingCollection where
  id : Nat
  deriving DecidableEq, Repr

/-- The ledger tables consulted by `get_financial_overview`.  Each list is
the full stored table; `stocktakings` is kept in ascending `id` order, the
order in which `StocktakingCollection.query.order_by(id)` returns rows. -/
structure LedgerState where
  purchases : List Purchase
  deposits : List Deposit
  turnovers : List Turnover
  payoffs : List Payoff
  refunds : List Refund
  replcolls : List ReplenishmentCollection
  stocktakings : List StocktakingCollection
  deriving Repr

/-- One line of the overview's income/expense breakdown. -/
structure OverviewItem where
  name : String
  amount : Int
  deriving DecidableEq, Repr

/-- One bucket (`incomes` or `expenses`) of the overview. -/
structure Bucket where
  amount : Int
  items : List OverviewItem
  deriving DecidableEq, Repr

/-- The value returned by `get_financial_overview`. -/
structure FinancialOverview where
  total_balance : Int
  incomes : Bucket
  expenses : Bucket
  deriving DecidableEq, Repr

/-- `sum(map(abs, filter(lambda x: x >= 0, xs)))` from `shopdb/api.py`. -/
def sumAbsNonneg (xs : List Int) : Int :=
  ((xs.filter (fun x => 0 ≤ x)).map (fun x => |x|)).sum

/-- `sum(map(abs, filter(lambda x: x < 0, xs)))` from `shopdb/api.py`. -/
def sumAbsNeg (xs : List Int) : Int :=
  ((xs.filter (fun x => x < 0)).map (fun x => |x|)).sum

/-- `Purchase.query.filter(Purchase.revoked.is_(False)).all()`. -/
def nonRevokedPurchases (s : LedgerState) : List Purchase :=
  s.purchases.filter (fun p => !p.revoked)

/-- `Deposit.query.filter(Deposit.revoked.is_(False)).all()`. -/
def nonRevokedDeposits (s : LedgerState) : List Deposit :=
  s.deposits.filter (fun d => !d.revoked)

/-- `Turnover.query.filter(Turnover.revoked.is_(False)).all()`. -/
def nonRevokedTurnovers (s : LedgerState) : List Turnover :=
  s.turnovers.filter (fun t => !t.revoked)

/-- `Payoff.query.filter(Payoff.revoked.is_(False)).all()`. -/
def nonRevokedPayoffs (s : LedgerState) : List Payoff :=
  s.payoffs.filter (fun p => !p.revoked)

/-- `Refund.query.filter(Refund.revoked.is_(False)).all()`. -/
def nonRevokedRefunds (s : LedgerState) : List Refund :=
  s.refunds.filter (fun r => !r.revoked)

/-- `ReplenishmentCollection.query.filter(...revoked.is_(False)).all()`. -/
def nonRevokedReplcolls (s : LedgerState) : List ReplenishmentCollection :=
  s.replcolls.filter (fun r => !r.revoked)

/-- The stocktaking contribution of `get_financial_overview`
(`shopdb/api.py` lines 775-790): the first and last collection by `id` are
fetched; if either is missing or they are the same row, both contributions
are `0`; otherwise `_get_balance_between_stocktakings` (a helper outside
`api.py`, abstracted here as the oracle `bal`) yields `(profit, loss)`. -/
def stockBalance (bal : StocktakingCollection → StocktakingCollection → Int × Int)
    (s : LedgerState) : Int × Int :=
  match s.stocktakings.head?, s.stocktakings.getLast? with
  | some first, some last =>
      if first = last then (0, 0) else bal first last
  | _, _ => (0, 0)

/-- `get_financial_overview` (`shopdb/api.py` lines 740-911), parametrised
by the stocktaking balance oracle `bal` standing for
`_get_balance_between_stocktakings`. -/
def get_financial_overview
    (bal : StocktakingCollection → StocktakingCollection → Int × Int)
    (s : LedgerState) : FinancialOverview :=
  let stock := stockBalance bal s
  let pos_stock := stock.1
  let neg_stock := stock.2
  let pos_pur := sumAbsNonneg ((nonRevokedPurchases s).map (fun x => x.price))
  let pos_dep := sumAbsNonneg ((nonRevokedDeposits s).map (fun x => x.amount))
  let pos_turn := sumAbsNonneg ((nonRevokedTurnovers s).map (fun x => x.amount))
  let neg_rep := sumAbsNeg ((nonRevokedReplcolls s).map (fun x => x.price))
  let neg_ref := sumAbsNeg ((nonRevokedRefunds s).map (fun x => x.total_price))
  let neg_pay := sumAbsNeg ((nonRevokedPayoffs s).map (fun x => x.amount))
  let sum_incomes := pos_pur + pos_dep + pos_turn + neg_rep + neg_ref + neg_pay + pos_stock
  let neg_pur := sumAbsNeg ((nonRevokedPurchases s).map (fun x => x.price))
  let neg_dep := sumAbsNeg ((nonRevokedDeposits s).map (fun x => x.amount))
  let neg_turn := sumAbsNeg ((nonRevokedTurnovers s).map (fun x => x.amount))
  let pos_rep := sumAbsNonneg ((nonRevokedReplcolls s).map (fun x => x.price))
  let pos_ref := sumAbsNonneg ((nonRevokedRefunds s).map (fun x => x.total_price))
  let pos_pay := sumAbsNonneg ((nonRevokedPayoffs s).map (fun x => x.amount))
  let sum_expenses := neg_pur + neg_dep + neg_turn + pos_rep + pos_ref + pos_pay + neg_stock
  { total_balance := sum_incomes - sum_expenses
    incomes :=
      { amount := sum_incomes
        items :=
          [ ⟨"Purchases", pos_pur⟩, ⟨"Deposits", pos_dep⟩,
            ⟨"Turnovers", pos_turn⟩, ⟨"Replenishments", neg_rep⟩,
            ⟨"Refunds", neg_ref⟩, ⟨"Payoffs", neg_pay⟩,
            ⟨"Stocktakings", pos_stock⟩ ] }
    expenses :=
      { amount := sum_expenses
        items :=
          [ ⟨"Purchases", neg_pur⟩, ⟨"Deposits", neg_dep⟩,
            ⟨"Turnovers", neg_turn⟩, ⟨"Replenishments", pos_rep⟩,
            ⟨"Refunds", pos_ref⟩, ⟨"Payoffs", pos_pay⟩,
            ⟨"Stocktakings", neg_stock⟩ ] } }

end ShopDB

open ShopDB

/-- **C1.** For every ledger state (and any stocktaking balance oracle), the
overview returned by `get_financial_overview` satisfies
`total_balance = (sum of incomes items) - (sum of expenses items)`, and each
bucket's `amount` equals the sum of its own items' amounts. -/
theorem c1_overview_identity
    (bal : StocktakingCollection → StocktakingCollection → Int × Int)
    (s : LedgerState) :
    let ov := get_financial_overview bal s
    ov.total_balance
      = (ov.incomes.items.map (fun i => i.amount)).sum
        - (ov.expenses.items.map (fun i => i.amount)).sum
    ∧ ov.incomes.amount = (ov.incomes.items.map (fun i => i.amount)).sum
    ∧ ov.expenses.amount = (ov.expenses.items.map (fun i => i.amount)).sum := by
  refine ⟨?_, ?_, ?_⟩ <;>
    simp [get_financial_overview, List.sum_cons] <;> ring

/-- **C2.** A revoked entry of any of the six ledger types contributes
nothing to the overview: prepending it to its table leaves the entire
result of `get_financial_overview` (all income items, all expense items,
and `total_balance`) unchanged. -/
theorem c2_revoked_excluded
    (bal : StocktakingCollection → StocktakingCollection → Int × Int)
    (s : LedgerState) (p : Purchase) (d : Deposit) (t : Turnover)
    (po : Payoff) (r : Refund) (rc : ReplenishmentCollection)
    (hp : p.revoked = true) (hd : d.revoked = true) (ht : t.revoked = true)
    (hpo : po.revoked = true) (hr : r.revoked = true) (hrc : rc.revoked = true) :
    get_financial_overview bal { s with purchases := p :: s.purchases }
      = get_financial_overview bal s
    ∧ get_financial_overview bal { s with deposits := d :: s.deposits }
      = get_financial_overview bal s
    ∧ get_financial_overview bal { s with turnovers := t :: s.turnovers }
      = get_financial_overview bal s
    ∧ get_financial_overview bal { s with payoffs := po :: s.payoffs }
      = get_financial_overview bal s
    ∧ get_financial_overview bal { s with refunds := r :: s.refunds }
      = get_financial_overview bal s
    ∧ get_financial_overview bal { s with replcolls := rc :: s.replcolls }
      = get_financial_overview bal s := by
  refine ⟨?_, ?_, ?_, ?_, ?_, ?_⟩ <;>
    simp [get_financial_overview, nonRevokedPurchases, nonRevokedDeposits,
      nonRevokedTurnovers, nonRevokedPayoffs, nonRevokedRefunds,
      nonRevokedReplcolls, stockBalance, List.filter_cons, hp, hd, ht, hpo,
      hr, hrc]

/-- Closed instance of `c2_revoked_excluded`: a revoked entry of each type
added to the empty ledger leaves the overview unchanged. -/
theorem c2_revoked_excluded_witness :
    let s : LedgerState := ⟨[], [], [], [], [], [], []⟩
    let bal : StocktakingCollection → StocktakingCollection → Int × Int :=
      fun _ _ => (0, 0)
    get_financial_overview bal { s with purchases := [⟨300, true⟩] }
      = get_financial_overview bal s
    ∧ get_financial_overview bal { s with deposits := [⟨1, -150, true⟩] }
      = get_financial_overview bal s
    ∧ get_financial_overview bal { s with turnovers := [⟨-500, 1, true, []⟩] }
      = get_financial_overview bal s
    ∧ get_financial_overview bal { s with payoffs := [⟨7, true⟩] }
      = get_financial_overview bal s
    ∧ get_financial_overview bal { s with refunds := [⟨-9, true⟩] }
      = get_financial_overview bal s
    ∧ get_financial_overview bal { s with replcolls := [⟨220, true⟩] }
      = get_financial_overview bal s :=
  c2_revoked_excluded (fun _ _ => (0, 0)) ⟨[], [], [], [], [], [], []⟩
    ⟨300, true⟩ ⟨1, -150, true⟩ ⟨-500, 1, true, []⟩ ⟨7, true⟩ ⟨-9, true⟩
    ⟨220, true⟩ rfl rfl rfl rfl rfl rfl

namespace ShopDB

/-- Sum of absolute values of the strictly positive elements: the
contribution the spec ascribes to the entries whose sign matches an
income-typed convention. -/
def sumAbsPos (xs : List Int) : Int :=
  ((xs.filter (fun x => 0 < x)).map (fun x => |x|)).sum

/-- On a list without zeroes, the code's `x >= 0` filter and the spec's
strictly-positive filter agree. -/
theorem sumAbsNonneg_eq_sumAbsPos (xs : List Int) (h : ∀ x ∈ xs, x ≠ 0) :
    sumAbsNonneg xs = sumAbsPos xs := by
  unfold sumAbsNonneg sumAbsPos
  have : xs.filter (fun x => 0 ≤ x) = xs.filter (fun x => 0 < x) := by
    apply List.filter_congr
    intro x hx
    have hne := h x hx
    simp only [decide_eq_decide]
    omega
  rw [this]

end ShopDB

/-- **C3.** When every non-revoked entry has a nonzero amount,
`get_financial_overview` partitions each type's non-revoked entries by sign
with a fixed per-type income sign: positive Purchases/Deposits/Turnovers and
negative Replenishments/Refunds/Payoffs contribute their absolute values to
`incomes` under their type's label, the oppositely signed entries to
`expenses`; and in the scenario of one Purchase of price 300 and one Deposit
of amount -150, incomes lists 300 under Purchases, expenses lists 150 under
Deposits, and `total_balance = 150`. -/
theorem c3_sign_partition
    (bal : StocktakingCollection → StocktakingCollection → Int × Int)
    (s : LedgerState)
    (hpur : ∀ p ∈ nonRevokedPurchases s, p.price ≠ 0)
    (hdep : ∀ d ∈ nonRevokedDeposits s, d.amount ≠ 0)
    (hturn : ∀ t ∈ nonRevokedTurnovers s, t.amount ≠ 0)
    (hrep : ∀ r ∈ nonRevokedReplcolls s, r.price ≠ 0)
    (href : ∀ r ∈ nonRevokedRefunds s, r.total_price ≠ 0)
    (hpay : ∀ p ∈ nonRevokedPayoffs s, p.amount ≠ 0) :
    ((get_financial_overview bal s).incomes.items
      = [ ⟨"Purchases", sumAbsPos ((nonRevokedPurchases s).map (fun x => x.price))⟩,
          ⟨"Deposits", sumAbsPos ((nonRevokedDeposits s).map (fun x => x.amount))⟩,
          ⟨"Turnovers", sumAbsPos ((nonRevokedTurnovers s).map (fun x => x.amount))⟩,
          ⟨"Replenishments", sumAbsNeg ((nonRevokedReplcolls s).map (fun x => x.price))⟩,
          ⟨"Refunds", sumAbsNeg ((nonRevokedRefunds s).map (fun x => x.total_price))⟩,
          ⟨"Payoffs", sumAbsNeg ((nonRevokedPayoffs s).map (fun x => x.amount))⟩,
          ⟨"Stocktakings", (stockBalance bal s).1⟩ ]
    ∧ (get_financial_overview bal s).expenses.items
      = [ ⟨"Purchases", sumAbsNeg ((nonRevokedPurchases s).map (fun x => x.price))⟩,
          ⟨"Deposits", sumAbsNeg ((nonRevokedDeposits s).map (fun x => x.amount))⟩,
          ⟨"Turnovers", sumAbsNeg ((nonRevokedTurnovers s).map (fun x => x.amount))⟩,
          ⟨"Replenishments", sumAbsPos ((nonRevokedReplcolls s).map (fun x => x.price))⟩,
          ⟨"Refunds", sumAbsPos ((nonRevokedRefunds s).map (fun x => x.total_price))⟩,
          ⟨"Payoffs", sumAbsPos ((nonRevokedPayoffs s).map (fun x => x.amount))⟩,
          ⟨"Stocktakings", (stockBalance bal s).2⟩ ])
    ∧ (let sc : LedgerState := ⟨[⟨300, false⟩], [⟨1, -150, false⟩], [], [], [], [], []⟩
       (⟨"Purchases", 300⟩ : OverviewItem) ∈ (get_financial_overview bal sc).incomes.items
       ∧ (⟨"Deposits", 150⟩ : OverviewItem) ∈ (get_financial_overview bal sc).expenses.items
       ∧ (get_financial_overview bal sc).total_balance = 150) := by
  have habs : ∀ (xs : List Int), (∀ x ∈ xs, x ≠ 0) →
      sumAbsNonneg xs = sumAbsPos xs := sumAbsNonneg_eq_sumAbsPos
  refine ⟨⟨?_, ?_⟩, ?_, ?_, ?_⟩
  · simp only [get_financial_overview]
    rw [habs _ (by simpa using hpur), habs _ (by simpa using hdep),
        habs _ (by simpa using hturn)]
  · simp only [get_financial_overview]
    rw [habs _ (by simpa using hrep), habs _ (by simpa using href),
        habs _ (by simpa using hpay)]
  · simp [get_financial_overview, stockBalance, nonRevokedPurchases,
      nonRevokedDeposits, nonRevokedTurnovers, nonRevokedPayoffs,
      nonRevokedRefunds, nonRevokedReplcolls, sumAbsNonneg, sumAbsNeg]
  · simp [get_financial_overview, stockBalance, nonRevokedPurchases,
      nonRevokedDeposits, nonRevokedTurnovers, nonRevokedPayoffs,
      nonRevokedRefunds, nonRevokedReplcolls, sumAbsNonneg, sumAbsNeg]
  · simp [get_financial_overview, stockBalance, nonRevokedPurchases,
      nonRevokedDeposits, nonRevokedTurnovers, nonRevokedPayoffs,
      nonRevokedRefunds, nonRevokedReplcolls, sumAbsNonneg, sumAbsNeg]

/-- Closed instance of `c3_sign_partition` at the scenario's own state. -/
theorem c3_sign_partition_witness :
    let sc : LedgerState := ⟨[⟨300, false⟩], [⟨1, -150, false⟩], [], [], [], [], []⟩
    let bal : StocktakingCollection → StocktakingCollection → Int × Int :=
      fun _ _ => (0, 0)
    (∀ p ∈ nonRevokedPurchases sc, p.price ≠ 0)
    ∧ ((get_financial_overview bal sc).incomes.items
        = [ ⟨"Purchases", sumAbsPos ((nonRevokedPurchases sc).map (fun x => x.price))⟩,
            ⟨"Deposits", sumAbsPos ((nonRevokedDeposits sc).map (fun x => x.amount))⟩,
            ⟨"Turnovers", sumAbsPos ((nonRevokedTurnovers sc).map (fun x => x.amount))⟩,
            ⟨"Replenishments", sumAbsNeg ((nonRevokedReplcolls sc).map (fun x => x.price))⟩,
            ⟨"Refunds", sumAbsNeg ((nonRevokedRefunds sc).map (fun x => x.total_price))⟩,
            ⟨"Payoffs", sumAbsNeg ((nonRevokedPayoffs sc).map (fun x => x.amount))⟩,
            ⟨"Stocktakings", (stockBalance bal sc).1⟩ ]
      ∧ (get_financial_overview bal sc).expenses.items
        = [ ⟨"Purchases", sumAbsNeg ((nonRevokedPurchases sc).map (fun x => x.price))⟩,
            ⟨"Deposits", sumAbsNeg ((nonRevokedDeposits sc).map (fun x => x.amount))⟩,
            ⟨"Turnovers", sumAbsNeg ((nonRevokedTurnovers sc).map (fun x => x.amount))⟩,
            ⟨"Replenishments", sumAbsPos ((nonRevokedReplcolls sc).map (fun x => x.price))⟩,
            ⟨"Refunds", sumAbsPos ((nonRevokedRefunds sc).map (fun x => x.total_price))⟩,
            ⟨"Payoffs", sumAbsPos ((nonRevokedPayoffs sc).map (fun x => x.amount))⟩,
            ⟨"Stocktakings", (stockBalance bal sc).2⟩ ])
    ∧ (⟨"Purchases", 300⟩ : OverviewItem) ∈ (get_financial_overview bal sc).incomes.items
    ∧ (get_financial_overview bal sc).total_balance = 150 := by
  refine ⟨by decide, ?_, ?_, ?_⟩
  · exact (c3_sign_partition (fun _ _ => (0, 0))
      ⟨[⟨300, false⟩], [⟨1, -150, false⟩], [], [], [], [], []⟩
      (by decide) (by decide) (by decide) (by decide) (by decide) (by decide)).1
  · exact ((c3_sign_partition (fun _ _ => (0, 0))
      ⟨[⟨300, false⟩], [⟨1, -150, false⟩], [], [], [], [], []⟩
      (by decide) (by decide) (by decide) (by decide) (by decide) (by decide)).2).1
  · exact (((c3_sign_partition (fun _ _ => (0, 0))
      ⟨[⟨300, false⟩], [⟨1, -150, false⟩], [], [], [], [], []⟩
      (by decide) (by decide) (by decide) (by decide) (by decide) (by decide)).2).2).2

namespace ShopDB

/-- A stocktaking table with at most one row has equal first and last
elements. -/
theorem head_eq_getLast_of_short (l : List StocktakingCollection)
    (h : l.length ≤ 1) : l.head? = l.getLast? := by
  match l with
  | [] => rfl
  | [a] => rfl
  | a :: b :: t => simp at h

end ShopDB

/-- **C6.** If zero or one `StocktakingCollection` exists, or the earliest
and the latest collection are the same row, the stocktaking contribution is
`(0, 0)`: the overview's `Stocktakings` item is `0` in both buckets, and the
balance helper is never consulted (the overview is the same for every
oracle). -/
theorem c6_stocktaking_degenerate
    (bal bal' : StocktakingCollection → StocktakingCollection → Int × Int)
    (s : LedgerState)
    (h : s.stocktakings.length ≤ 1
         ∨ s.stocktakings.head? = s.stocktakings.getLast?) :
    stockBalance bal s = (0, 0)
    ∧ (⟨"Stocktakings", 0⟩ : OverviewItem)
        ∈ (get_financial_overview bal s).incomes.items
    ∧ (⟨"Stocktakings", 0⟩ : OverviewItem)
        ∈ (get_financial_overview bal s).expenses.items
    ∧ get_financial_overview bal s = get_financial_overview bal' s := by
  have hhl : s.stocktakings.head? = s.stocktakings.getLast? := by
    rcases h with h | h
    · exact head_eq_getLast_of_short _ h
    · exact h
  have hsb : ∀ b : StocktakingCollection → StocktakingCollection → Int × Int,
      stockBalance b s = (0, 0) := by
    intro b
    unfold stockBalance
    rw [hhl]
    cases s.stocktakings.getLast? with
    | none => rfl
    | some x => simp
  refine ⟨hsb bal, ?_, ?_, ?_⟩ <;>
    simp [get_financial_overview, hsb]

/-- Closed instance of `c6_stocktaking_degenerate`: a single stocktaking
collection with a nonzero oracle still yields a zero contribution. -/
theorem c6_stocktaking_degenerate_witness :
    let s : LedgerState := ⟨[], [], [], [], [], [], [⟨1⟩]⟩
    let bal : StocktakingCollection → StocktakingCollection → Int × Int :=
      fun _ _ => (5, 7)
    let bal' : StocktakingCollection → StocktakingCollection → Int × Int :=
      fun _ _ => (0, 0)
    stockBalance bal s = (0, 0)
    ∧ (⟨"Stocktakings", 0⟩ : OverviewItem)
        ∈ (get_financial_overview bal s).incomes.items
    ∧ (⟨"Stocktakings", 0⟩ : OverviewItem)
        ∈ (get_financial_overview bal s).expenses.items
    ∧ get_financial_overview bal s = get_financial_overview bal' s :=
  c6_stocktaking_degenerate (fun _ _ => (5, 7)) (fun _ _ => (0, 0))
    ⟨[], [], [], [], [], [], [⟨1⟩]⟩ (Or.inl (by decide))

namespace ShopDB

/-- A `User` row with the columns the embedded operations read. -/
structure User where
  id : Nat
  is_verified : Bool
  active : Bool
  is_admin : Bool
  deriving DecidableEq, Repr

/-- The stored tables touched by the embedded create/revoke operations.
Turnover rows are keyed by their primary key. -/
structure DB where
  users : List User
  turnovers : List (Nat × Turnover)
  deposits : List Deposit
  deriving Repr

/-- The SQLAlchemy session: the last committed database and the current
view including uncommitted changes.  `db.session.add` mutates `current`;
`db.session.commit` publishes `current`; `db.session.rollback` restores
`committed`. -/
structure Session where
  committed : DB
  current : DB

/-- The JSON body accepted by `create_turnover` (`required = {'amount': int,
'comment': str}`); a `none` field is a missing key. -/
structure TurnoverBody where
  amount : Option Int
  comment : Option String

/-- The JSON body accepted by `insert_deposit` (`required = {'user_id': int,
'amount': int, 'comment': str}`). -/
structure DepositBody where
  user_id : Option Nat
  amount : Option Int
  comment : Option String

/-- `insert_deposit` (`shopdb/api.py` lines 251-289): field check, user
lookup, verified/active gates, zero-amount gate, then `db.session.add`
(no commit — the caller's route commits). -/
def insert_deposit (body : DepositBody) (_admin : User) (s : Session) :
    Except Err Unit × Session :=
  match body.user_id, body.amount, body.comment with
  | some uid, some amount, some _ =>
    match s.current.users.find? (fun u => u.id = uid) with
    | none => (.error .EntryNotFound, s)
    | some u =>
      if !u.is_verified then (.error .UserIsNotVerified, s)
      else if !u.active then (.error .UserIsInactive, s)
      else if amount = 0 then (.error .InvalidAmount, s)
      else (.ok (), { s with current :=
        { s.current with deposits := s.current.deposits ++ [⟨uid, amount, false⟩] } })
  | _, _, _ => (.error .DataIsMissing, s)

/-- `create_turnover` (`shopdb/api.py` lines 1111-1144): field check,
zero-amount gate, `db.session.add` of a fresh non-revoked turnover with
empty audit history, then `db.session.commit`.  `commitOk` stands for the
persistence layer accepting the commit; a refused commit raises
`IntegrityError`, surfaced as `CouldNotCreateEntry`. -/
def create_turnover (commitOk : Bool) (body : TurnoverBody) (admin : User)
    (s : Session) : Except Err Unit × Session :=
  match body.amount, body.comment with
  | some amount, some _ =>
    if amount = 0 then (.error .InvalidAmount, s)
    else
      let t : Turnover := ⟨amount, admin.id, false, []⟩
      let cur := { s.current with
        turnovers := s.current.turnovers ++ [(s.current.turnovers.length + 1, t)] }
      if commitOk then (.ok (), ⟨cur, cur⟩)
      else (.error .CouldNotCreateEntry, { s with current := cur })
  | _, _ => (.error .DataIsMissing, s)

/-- `update_turnover` (`shopdb/api.py` lines 1169-1218): lookup by id,
empty-body gate, the no-op revoke gate of lines 1205-1207, then the model's
`toggle_revoke` (abstracted as the oracle `toggle`, since
`shopdb/models.py` is outside the embedded sources) and
`db.session.commit`; a refused commit raises `IntegrityError`, surfaced as
`CouldNotUpdateEntry`.  The body is the optional `revoked` field
(`updateable = {'revoked': bool}`); `none` is an empty JSON body. -/
def update_turnover (toggle : Turnover → Bool → Nat → Turnover)
    (commitOk : Bool) (id : Nat) (body : Option Bool) (admin : User)
    (s : Session) : Except Err Unit × Session :=
  match s.current.turnovers.find? (fun r => r.1 = id) with
  | none => (.error .EntryNotFound, s)
  | some tr =>
    match body with
    | none => (.error .NothingHasChanged, s)
    | some newRevoked =>
      if tr.2.revoked = newRevoked then (.error .NothingHasChanged, s)
      else
        let t := toggle tr.2 newRevoked admin.id
        let cur := { s.current with
          turnovers := s.current.turnovers.map
            (fun r => if r.1 = tr.1 then (r.1, t) else r) }
        if commitOk then (.ok (), ⟨cur, cur⟩)
        else (.error .CouldNotUpdateEntry, { s with current := cur })

/-- `handle_error` (`shopdb/api.py` lines 457-475): every exception that
escapes an operation triggers `db.session.rollback()` before the error
response is produced. -/
def handle_error {α : Type} (run : Session → Except Err α × Session)
    (s : Session) : Except Err α × Session :=
  match run s with
  | (.error e, s') => (.error e, ⟨s'.committed, s'.committed⟩)
  | ok => ok

end ShopDB

/-- **C4.** Requesting a revoke toggle whose new state equals the
turnover's current `revoked` state fails with `NothingHasChanged`
(StateUnchanged) and returns the session untouched — the entry's `revoked`
flag and `revokehistory` are unmodified and no audit record is appended,
whatever `toggle_revoke` would do. -/
theorem c4_noop_revoke_rejected
    (toggle : Turnover → Bool → Nat → Turnover) (commitOk : Bool)
    (id : Nat) (admin : User) (s : Session) (tr : Nat × Turnover)
    (h : s.current.turnovers.find? (fun r => r.1 = id) = some tr) :
    update_turnover toggle commitOk id (some tr.2.revoked) admin s
      = (.error .NothingHasChanged, s) := by
  unfold update_turnover
  rw [h]
  simp

/-- Closed instance of `c4_noop_revoke_rejected` on a one-row table. -/
theorem c4_noop_revoke_rejected_witness :
    let t : Turnover := ⟨-500, 1, false, []⟩
    let db : DB := ⟨[], [(1, t)], []⟩
    let s : Session := ⟨db, db⟩
    s.current.turnovers.find? (fun r => r.1 = 1) = some (1, t)
    ∧ update_turnover (fun t _ _ => t) true 1 (some false) ⟨1, true, true, true⟩ s
        = (.error .NothingHasChanged, s) :=
  ⟨rfl, c4_noop_revoke_rejected (fun t _ _ => t) true 1 ⟨1, true, true, true⟩
    ⟨⟨[], [(1, ⟨-500, 1, false, []⟩)], []⟩, ⟨[], [(1, ⟨-500, 1, false, []⟩)], []⟩⟩
    (1, ⟨-500, 1, false, []⟩) rfl⟩

namespace ShopDB

/-- If an operation's error exits never move the committed database, then
wrapping it in `handle_error` returns, on failure, exactly the session it
was given (provided that session had no pending changes). -/
theorem handle_error_restores {α : Type}
    (run : Session → Except Err α × Session) (s : Session)
    (hclean : s.current = s.committed)
    (hrun : ∀ e s', run s = (.error e, s') → s'.committed = s.committed) :
    ∀ e, (handle_error run s).1 = .error e → (handle_error run s).2 = s := by
  intro e h
  rcases hr : run s with ⟨r, s'⟩
  cases r with
  | ok a =>
    exfalso
    have hok : (handle_error run s).1 = .ok a := by
      unfold handle_error
      rw [hr]
    rw [hok] at h
    exact Except.noConfusion h
  | error e' =>
    have hc : s'.committed = s.committed := hrun e' s' hr
    have hres : handle_error run s
        = (.error e', ⟨s'.committed, s'.committed⟩) := by
      unfold handle_error
      rw [hr]
    rw [hres]
    rcases s with ⟨com, cur⟩
    have h2 : cur = com := hclean
    subst h2
    simp only at hc
    simp [hc]

/-- Every error exit of `create_turnover` leaves the committed database
untouched. -/
theorem create_turnover_error_committed (commitOk : Bool)
    (body : TurnoverBody) (admin : User) (s : Session) :
    ∀ e s', create_turnover commitOk body admin s = (.error e, s')
      → s'.committed = s.committed := by
  intro e s' h
  unfold create_turnover at h
  split at h
  · split at h
    · cases h
      rfl
    · split at h
      · simp at h
      · cases h
        rfl
  · cases h
    rfl

/-- Every error exit of `update_turnover` leaves the committed database
untouched. -/
theorem update_turnover_error_committed
    (toggle : Turnover → Bool → Nat → Turnover) (commitOk : Bool)
    (id : Nat) (body : Option Bool) (admin : User) (s : Session) :
    ∀ e s', update_turnover toggle commitOk id body admin s = (.error e, s')
      → s'.committed = s.committed := by
  intro e s' h
  unfold update_turnover at h
  split at h
  · cases h
    rfl
  · split at h
    · cases h
      rfl
    · split at h
      · cases h
        rfl
      · split at h
        · simp at h
        · cases h
          rfl

end ShopDB

/-- **C5.** A create or revoke operation that fails with any error, run
under the global error handler's rollback, leaves the stored state exactly
as it was: for `create_turnover` and `update_turnover`, if the wrapped run
produces an error, the resulting session equals the initial one (which had
no pending changes), so no partial ledger entry or audit write is
observable. -/
theorem c5_rollback_on_failure
    (toggle : Turnover → Bool → Nat → Turnover) (commitOk : Bool)
    (tbody : TurnoverBody) (ubody : Option Bool) (id : Nat) (admin : User)
    (s : Session) (hclean : s.current = s.committed) :
    (∀ e, (handle_error (create_turnover commitOk tbody admin) s).1 = .error e
      → (handle_error (create_turnover commitOk tbody admin) s).2 = s)
    ∧ (∀ e, (handle_error (update_turnover toggle commitOk id ubody admin) s).1 = .error e
      → (handle_error (update_turnover toggle commitOk id ubody admin) s).2 = s) :=
  ⟨handle_error_restores _ s hclean
      (create_turnover_error_committed commitOk tbody admin s),
    handle_error_restores _ s hclean
      (update_turnover_error_committed toggle commitOk id ubody admin s)⟩

/-- Closed instance of `c5_rollback_on_failure`: a zero-amount turnover
creation and a revoke of a missing turnover both fail and return the
initial session. -/
theorem c5_rollback_on_failure_witness :
    let db0 : DB := ⟨[], [], []⟩
    let s0 : Session := ⟨db0, db0⟩
    let admin : User := ⟨1, true, true, true⟩
    (handle_error (create_turnover true ⟨some 0, some "c"⟩ admin) s0).1
        = .error .InvalidAmount
    ∧ (handle_error (create_turnover true ⟨some 0, some "c"⟩ admin) s0).2 = s0
    ∧ (handle_error (update_turnover (fun t _ _ => t) true 5 (some true) admin) s0).1
        = .error .EntryNotFound
    ∧ (handle_error (update_turnover (fun t _ _ => t) true 5 (some true) admin) s0).2 = s0 :=
  ⟨rfl,
    (c5_rollback_on_failure (fun t _ _ => t) true ⟨some 0, some "c"⟩
      (some true) 5 ⟨1, true, true, true⟩ ⟨⟨[], [], []⟩, ⟨[], [], []⟩⟩ rfl).1
      .InvalidAmount rfl,
    rfl,
    (c5_rollback_on_failure (fun t _ _ => t) true ⟨some 0, some "c"⟩
      (some true) 5 ⟨1, true, true, true⟩ ⟨⟨[], [], []⟩, ⟨[], [], []⟩⟩ rfl).2
      .EntryNotFound rfl⟩

/-- **C7.** A deposit or turnover creation whose amount is exactly zero
(all required fields present, and for deposits an existing, verified,
active user) fails with `InvalidAmount` and the session is unchanged; a
creation can only succeed with a nonzero amount, and the row it appends
carries exactly that amount — so every stored entry has a nonzero amount
at creation. -/
theorem c7_zero_amount_rejected
    (commitOk : Bool) (uid : Nat) (cmt cmt2 : String) (u admin : User)
    (s : Session)
    (hfind : s.current.users.find? (fun x => x.id = uid) = some u)
    (hver : u.is_verified = true) (hact : u.active = true) :
    insert_deposit ⟨some uid, some 0, some cmt⟩ admin s
      = (.error .InvalidAmount, s)
    ∧ create_turnover commitOk ⟨some 0, some cmt2⟩ admin s
      = (.error .InvalidAmount, s)
    ∧ (∀ uid2 a c,
        (insert_deposit ⟨some uid2, some a, some c⟩ admin s).1 = .ok ()
        → a ≠ 0)
    ∧ (∀ a c,
        (create_turnover commitOk ⟨some a, some c⟩ admin s).1 = .ok ()
        → a ≠ 0)
    ∧ (∀ uid2 a c r,
        insert_deposit ⟨some uid2, some a, some c⟩ admin s = (.ok (), r)
        → r.current.deposits = s.current.deposits ++ [⟨uid2, a, false⟩])
    ∧ (∀ a c r,
        create_turnover commitOk ⟨some a, some c⟩ admin s = (.ok (), r)
        → r.current.turnovers = s.current.turnovers
            ++ [(s.current.turnovers.length + 1, ⟨a, admin.id, false, []⟩)]) := by
  refine ⟨?_, ?_, ?_, ?_, ?_, ?_⟩
  · simp [insert_deposit, hfind, hver, hact]
  · simp [create_turnover]
  · intro uid2 a c hok
    unfold insert_deposit at hok
    rcases hf : s.current.users.find? (fun x => x.id = uid2) with _ | u'
    · simp [hf] at hok
    · simp only [hf] at hok
      split_ifs at hok with h1 h2 h3
      exact h3
  · intro a c hok
    unfold create_turnover at hok
    simp only at hok
    split_ifs at hok with h1 h2
    exact h1
  · intro uid2 a c r h
    unfold insert_deposit at h
    rcases hf : s.current.users.find? (fun x => x.id = uid2) with _ | u'
    · simp [hf] at h
    · simp only [hf] at h
      split_ifs at h with h1 h2 h3 <;>
        first
        | (have h2 : _ = r := congrArg Prod.snd h
           subst h2
           rfl)
        | simp at h
  · intro a c r h
    unfold create_turnover at h
    simp only at h
    split_ifs at h with h1 h2 <;>
      first
      | (have hh : _ = r := congrArg Prod.snd h
         subst hh
         rfl)
      | simp at h

/-- Closed instance of `c7_zero_amount_rejected` on a one-user database. -/
theorem c7_zero_amount_rejected_witness :
    let u : User := ⟨2, true, true, false⟩
    let db0 : DB := ⟨[u], [], []⟩
    let s0 : Session := ⟨db0, db0⟩
    let admin : User := ⟨1, true, true, true⟩
    s0.current.users.find? (fun x => x.id = 2) = some u
    ∧ insert_deposit ⟨some 2, some 0, some "c"⟩ admin s0
        = (.error .InvalidAmount, s0)
    ∧ create_turnover true ⟨some 0, some "c"⟩ admin s0
        = (.error .InvalidAmount, s0) := by
  refine ⟨rfl, ?_, ?_⟩
  · exact (c7_zero_amount_rejected true 2 "c" "c" ⟨2, true, true, false⟩
      ⟨1, true, true, true⟩
      ⟨⟨[⟨2, true, true, false⟩], [], []⟩, ⟨[⟨2, true, true, false⟩], [], []⟩⟩
      rfl rfl rfl).1
  · exact ((c7_zero_amount_rejected true 2 "c" "c" ⟨2, true, true, false⟩
      ⟨1, true, true, true⟩
      ⟨⟨[⟨2, true, true, false⟩], [], []⟩, ⟨[⟨2, true, true, false⟩], [], []⟩⟩
      rfl rfl rfl).2).1

namespace ShopDB

/-- The outcome of the decorators `adminRequired` / `adminOptional`
(`shopdb/api.py` lines 326-433): either the wrapped function is invoked
with an admin argument (`None` for the degraded optional path), a
`ShopdbException` is raised, or — when `User.query...first()` returned
`None` and `admin.is_admin` is evaluated — a Python `AttributeError`
escapes the decorator, since only `KeyError` and `AssertionError` are
caught there. -/
inductive AuthOutcome where
  | proceed (admin : Option User)
  | failed (e : Err)
  | uncaughtAttributeError
  deriving DecidableEq, Repr

/-- The states of the request's `token` header that the decorators
distinguish: header absent (`KeyError` on `request.headers['token']`),
undecodable (`jwt.exceptions.DecodeError`), expired
(`jwt.ExpiredSignatureError`), or decoded to a payload in which
`data['user']['id']` is either present or missing (`KeyError`). -/
inductive TokenState where
  | missing
  | undecodable
  | expired
  | decoded (userId : Option Nat)
  deriving DecidableEq, Repr

/-- `adminRequired` (`shopdb/api.py` lines 326-379). -/
def adminRequired (users : List User) (tok : TokenState) : AuthOutcome :=
  match tok with
  | .missing => .failed .UnauthorizedAccess
  | .undecodable => .failed .TokenIsInvalid
  | .expired => .failed .TokenHasExpired
  | .decoded none => .failed .TokenIsInvalid
  | .decoded (some uid) =>
    match users.find? (fun u => u.id = uid) with
    | none => .uncaughtAttributeError
    | some admin =>
      if admin.is_admin then .proceed (some admin)
      else .failed .UnauthorizedAccess

/-- `adminOptional` (`shopdb/api.py` lines 382-433). -/
def adminOptional (users : List User) (tok : TokenState) : AuthOutcome :=
  match tok with
  | .missing => .proceed none
  | .undecodable => .failed .TokenIsInvalid
  | .expired => .failed .TokenHasExpired
  | .decoded none => .failed .TokenIsInvalid
  | .decoded (some uid) =>
    match users.find? (fun u => u.id = uid) with
    | none => .uncaughtAttributeError
    | some admin =>
      if admin.is_admin then .proceed (some admin)
      else .proceed none

end ShopDB

/-- **C8.** For every request, `adminRequired` fails with
`UnauthorizedAccess` on a missing token header, `TokenIsInvalid` on an
undecodable token, `TokenHasExpired` on an expired token, and
`UnauthorizedAccess` when the resolved user lacks admin privilege;
`adminOptional` instead proceeds with `admin = None` on a missing header or
a resolved non-admin user, while still failing with `TokenIsInvalid` /
`TokenHasExpired` on undecodable or expired tokens. -/
theorem c8_authorization_gate
    (users : List User) (uid : Nat) (u : User)
    (hfind : users.find? (fun x => x.id = uid) = some u)
    (hadm : u.is_admin = false) :
    adminRequired users .missing = .failed .UnauthorizedAccess
    ∧ adminRequired users .undecodable = .failed .TokenIsInvalid
    ∧ adminRequired users .expired = .failed .TokenHasExpired
    ∧ adminRequired users (.decoded (some uid)) = .failed .UnauthorizedAccess
    ∧ adminOptional users .missing = .proceed none
    ∧ adminOptional users (.decoded (some uid)) = .proceed none
    ∧ adminOptional users .undecodable = .failed .TokenIsInvalid
    ∧ adminOptional users .expired = .failed .TokenHasExpired := by
  refine ⟨rfl, rfl, rfl, ?_, rfl, ?_, rfl, rfl⟩ <;>
    simp [adminRequired, adminOptional, hfind, hadm]

/-- Closed instance of `c8_authorization_gate` with a single non-admin
user. -/
theorem c8_authorization_gate_witness :
    let users : List User := [⟨2, true, true, false⟩]
    users.find? (fun x => x.id = 2) = some ⟨2, true, true, false⟩
    ∧ adminRequired users .missing = .failed .UnauthorizedAccess
    ∧ adminRequired users (.decoded (some 2)) = .failed .UnauthorizedAccess
    ∧ adminOptional users (.decoded (some 2)) = .proceed none :=
  ⟨rfl,
    (c8_authorization_gate [⟨2, true, true, false⟩] 2 ⟨2, true, true, false⟩
      rfl rfl).1,
    ((((c8_authorization_gate [⟨2, true, true, false⟩] 2 ⟨2, true, true, false⟩
      rfl rfl).2).2).2).1,
    (((((((c8_authorization_gate [⟨2, true, true, false⟩] 2
      ⟨2, true, true, false⟩ rfl rfl).2).2).2).2).2).1)⟩

/-- **C10.** A syntactically valid, unexpired token whose `user` id matches
no stored user makes both decorators evaluate `admin.is_admin` on `None`:
the resulting `AttributeError` is caught by neither `except KeyError` nor
`except AssertionError`, so the request ends in an unhandled
`AttributeError` instead of `TokenIsInvalid`, `UnauthorizedAccess`, or a
graceful anonymous degradation. -/
theorem c10_unknown_user_attribute_error
    (users : List User) (uid : Nat)
    (h : users.find? (fun x => x.id = uid) = none) :
    adminRequired users (.decoded (some uid)) = .uncaughtAttributeError
    ∧ adminOptional users (.decoded (some uid)) = .uncaughtAttributeError := by
  constructor <;> simp [adminRequired, adminOptional, h]

/-- Closed instance of `c10_unknown_user_attribute_error` on an empty user
table. -/
theorem c10_unknown_user_attribute_error_witness :
    ([] : List User).find? (fun x => x.id = 1) = none
    ∧ adminRequired [] (.decoded (some 1)) = .uncaughtAttributeError
    ∧ adminOptional [] (.decoded (some 1)) = .uncaughtAttributeError :=
  ⟨rfl, (c10_unknown_user_attribute_error [] 1 rfl).1,
    (c10_unknown_user_attribute_error [] 1 rfl).2⟩

namespace ShopDB

/-- A `Product` row: primary key and `active` flag. -/
structure Product where
  id : Nat
  active : Bool
  deriving DecidableEq, Repr

/-- A `Replenishment` line item `{product_id, amount, total_price}`. -/
structure Replenishment where
  product_id : Nat
  amount : Int
  total_price : Int
  deriving DecidableEq, Repr

/-- A stored `ReplenishmentCollection` row together with its owned line
items. -/
structure ReplenishmentCollectionRow where
  price : Int
  revoked : Bool
  revokehistory : List RevokeEntry
  replenishments : List Replenishment
  admin_id : Nat
  deriving DecidableEq, Repr

/-- Modelled from the spec: the route `create_replenishmentcollection`
lives in `shopdb/routes/replenishmentcollections.py`, which is not among
the embedded sources (only its tests are).  Per spec §4.2 and §3: a
non-empty list of line items is required (`DataIsMissing` otherwise), each
line-item amount must be positive (`InvalidAmount`), an unknown product id
fails with `EntryNotFound`; on success the collection price is the sum of
the line items' total prices (never caller-supplied), the collection
starts non-revoked with empty audit history, and every referenced product
is set `active = true`. -/
def create_replenishmentcollection (products : List Product)
    (items : List Replenishment) (adminId : Nat) :
    Except Err (ReplenishmentCollectionRow × List Product) :=
  if items.isEmpty then .error .DataIsMissing
  else if items.any (fun i => i.amount ≤ 0) then .error .InvalidAmount
  else if items.any
      (fun i => (products.find? (fun p => p.id = i.product_id)).isNone) then
    .error .EntryNotFound
  else
    .ok (⟨(items.map (fun i => i.total_price)).sum, false, [], items, adminId⟩,
      products.map (fun p =>
        if items.any (fun i => i.product_id = p.id)
        then { p with active := true } else p))

end ShopDB

/-- **C9.** A successfully created `ReplenishmentCollection` has price
equal to the sum of its line items' total prices, starts non-revoked with
empty revoke history; and creating the collection with line items
`{product 1: amount 100, total_price 200}` and `{product 2: amount 20,
total_price 20}` against a catalog where product 1 is inactive yields
price `220` and leaves product 1 `active = true`. -/
theorem c9_replenishmentcollection_create :
    (∀ (products : List Product) (items : List Replenishment)
        (adminId : Nat) (row : ReplenishmentCollectionRow)
        (products' : List Product),
      create_replenishmentcollection products items adminId
          = .ok (row, products')
        → row.price = (items.map (fun i => i.total_price)).sum
          ∧ row.revoked = false ∧ row.revokehistory = [])
    ∧ create_replenishmentcollection [⟨1, false⟩, ⟨2, true⟩]
        [⟨1, 100, 200⟩, ⟨2, 20, 20⟩] 1
        = .ok (⟨220, false, [], [⟨1, 100, 200⟩, ⟨2, 20, 20⟩], 1⟩,
            [⟨1, true⟩, ⟨2, true⟩]) := by
  constructor
  · intro products items adminId row products' h
    unfold create_replenishmentcollection at h
    split_ifs at h with h1 h2 h3
    first
      | exact Except.noConfusion h
      | (have hp := Except.ok.inj h
         have h4 : _ = row := congrArg Prod.fst hp
         subst h4
         exact ⟨rfl, rfl, rfl⟩)
  · rfl

/-- Closed instance of the success characterisation in
`c9_replenishmentcollection_create`, at the scenario input. -/
theorem c9_replenishmentcollection_create_witness :
    create_replenishmentcollection [⟨1, false⟩, ⟨2, true⟩]
        [⟨1, 100, 200⟩, ⟨2, 20, 20⟩] 1
      = .ok (⟨220, false, [], [⟨1, 100, 200⟩, ⟨2, 20, 20⟩], 1⟩,
          [⟨1, true⟩, ⟨2, true⟩])
    ∧ (220 : Int) = (([⟨1, 100, 200⟩, ⟨2, 20, 20⟩] : List Replenishment).map
          (fun i => i.total_price)).sum :=
  ⟨c9_replenishmentcollection_create.2,
    (c9_replenishmentcollection_create.1 [⟨1, false⟩, ⟨2, true⟩]
      [⟨1, 100, 200⟩, ⟨2, 20, 20⟩] 1
      ⟨220, false, [], [⟨1, 100, 200⟩, ⟨2, 20, 20⟩], 1⟩ [⟨1, true⟩, ⟨2, true⟩]
      c9_replenishmentcollection_create.2).1⟩
